import Mathlib

/-!
Shallow embedding of the queue-position prediction engine of the
`perm-backend` repository, together with theorems checking the
natural-language specification against it.

The embedded code:
* `src/dol_analytics/api/routes/predictions.py` — the
  `POST /predictions/from-date` handler `predict_from_submit_date`
  (queue-position predictor) and the pydantic request model
  `DateSubmissionRequest`;
* `src/dol_analytics/services/prediction.py` — the secondary
  `PredictionService.predict_from_date` path together with
  `_calculate_processing_time` and `_get_seasonal_factor`.

Modelling conventions:
* Python `float` arithmetic is modelled exactly over `ℚ` (the literals
  0.8, 0.2, 1.15, 0.01 become the rationals 8/10, 2/10, 23/20, 1/100);
  all quantities involved are far from double-precision rounding
  boundaries at the inputs considered.
* `datetime.date` is modelled by a year/month/day record `PyDate`; date
  subtraction, ordering, weekday and date+timedelta go through
  `PyDate.toDays`, the standard civil-from-days day count (days since
  1970-01-01).  Dates appearing in responses are represented by that day
  count, an order-preserving representation (`isoformat` is rendering
  only).
* The database is modelled by the *results* the handler's SQL queries
  can observe: the latest `processing_times` row (`ORDER BY record_date
  DESC LIMIT 1` + `fetchone` yields one optional row), the latest
  `summary_stats` row, and the full contents of the `weekly_summary`
  view and the `monthly_status` table, over which the handler's
  filtering / ordering / `LIMIT` / aggregation is executed explicitly.
* Python truthiness tests `float(x) if x else d` on nullable numeric
  columns are modelled by `truthy` (both `None`/SQL `NULL` and `0` are
  falsy).
* `services/prediction.py` is fallible and modelled as such: its
  module-level `from ..models.database import ...` is modelled by
  `importFrom` over the names `models/database.py` actually defines, and
  the pydantic `CasePrediction(...)` constructor call by
  `mkCasePrediction`, which raises `ValidationError` when required
  fields of the schema are not among the supplied keyword arguments.
* `int()` on a float truncates toward zero (`pyInt`); Python's `round`
  rounds half to even (`pyRound`).
-/

namespace PermBackend

/-- A Gregorian calendar date, as carried by Python's `datetime.date`
(`month` ∈ 1..12 and `day` ∈ 1..31 on every date Python can construct). -/
structure PyDate where
  year : Int
  month : Nat
  day : Nat
deriving DecidableEq, Repr

/-- Day count of a civil date: days since 1970-01-01 (Hinnant's
`days_from_civil`).  Python's `date` subtraction, ordering and
`timedelta` addition are all determined by this count. -/
def PyDate.toDays (d : PyDate) : Int :=
  let y : Int := if d.month ≤ 2 then d.year - 1 else d.year
  let era : Int := y.fdiv 400
  let yoe : Int := y - era * 400
  let mp : Int := if 2 < d.month then (d.month : Int) - 3 else (d.month : Int) + 9
  let doy : Int := (153 * mp + 2).fdiv 5 + (d.day : Int) - 1
  let doe : Int := yoe * 365 + yoe.fdiv 4 - yoe.fdiv 100 + doy
  era * 146097 + doe - 719468

/-- Python's `date.weekday()`: Monday = 0 … Sunday = 6
(1970-01-01 was a Thursday, weekday 3). -/
def PyDate.weekday (d : PyDate) : Int :=
  (d.toDays + 3) % 7

/-- Zero-pad a number below 100 to two digits, as in ISO date rendering. -/
def pad2 (n : Nat) : String :=
  if n < 10 then "0" ++ toString n else toString n

/-- Python's `date.isoformat()` (for four-digit years). -/
def PyDate.isoformat (d : PyDate) : String :=
  toString d.year ++ "-" ++ pad2 d.month ++ "-" ++ pad2 d.day

/-- Python's `int()` applied to a number: truncation toward zero. -/
def pyInt (q : ℚ) : Int :=
  if q < 0 then -(⌊-q⌋) else ⌊q⌋

/-- Python's `round()` applied to a number: round half to even. -/
def pyRound (q : ℚ) : Int :=
  let f := ⌊q⌋
  let r := q - (f : ℚ)
  if r < 1/2 then f
  else if 1/2 < r then f + 1
  else if f % 2 = 0 then f else f + 1

/-- Python's `float(x) if x else d` over a nullable numeric column:
`None` (SQL `NULL`) and `0` are falsy and give the default. -/
def truthy (o : Option ℚ) (d : ℚ) : ℚ :=
  match o with
  | none => d
  | some v => if v = 0 then d else v

/-- The fixed month-name → ordinal mapping appearing both as the Python
dict `month_to_num` and as the SQL `CASE` expression in the
`predict_from_submit_date` handler; unknown names give `none`
(SQL `NULL`, dict miss). -/
def monthToNum (s : String) : Option Int :=
  if s = "January" then some 1
  else if s = "February" then some 2
  else if s = "March" then some 3
  else if s = "April" then some 4
  else if s = "May" then some 5
  else if s = "June" then some 6
  else if s = "July" then some 7
  else if s = "August" then some 8
  else if s = "September" then some 9
  else if s = "October" then some 10
  else if s = "November" then some 11
  else if s = "December" then some 12
  else none

/-- The Python dict lookup `month_to_num.get(submit_month_name, 0)`. -/
def monthToNumD (s : String) : Int :=
  (monthToNum s).getD 0

/-- Python's `date.strftime("%B")` (C locale): the English month name. -/
def monthName : Nat → String
  | 1 => "January"
  | 2 => "February"
  | 3 => "March"
  | 4 => "April"
  | 5 => "May"
  | 6 => "June"
  | 7 => "July"
  | 8 => "August"
  | 9 => "September"
  | 10 => "October"
  | 11 => "November"
  | 12 => "December"
  | _ => ""

/-! ### Database rows observed by `predict_from_submit_date` -/

/-- The latest `processing_times` row as selected by
`SELECT percentile_50 AS median_days, percentile_80 AS upper_estimate_days
 FROM processing_times ORDER BY record_date DESC LIMIT 1`;
both columns are nullable. -/
structure ProcessingRow where
  median_days : Option ℚ
  upper_estimate_days : Option ℚ
deriving DecidableEq, Repr

/-- The latest `summary_stats` row as selected by
`SELECT pending_applications FROM summary_stats
 ORDER BY record_date DESC LIMIT 1`. -/
structure BacklogRow where
  pending_applications : Option ℚ
deriving DecidableEq, Repr

/-- One row of the `weekly_summary` view. -/
structure WeeklyRow where
  week_start : PyDate
  total_applications : ℚ
deriving DecidableEq, Repr

/-- One row of the `monthly_status` table (month stored as a text name). -/
structure MonthlyRow where
  year : Int
  month : String
  status : String
  count : ℚ
deriving DecidableEq, Repr

/-- The database state visible to the `/predictions/from-date` handler:
the two latest-row query results and the full contents of the two
relations it aggregates over. -/
structure Database where
  processing_times : Option ProcessingRow
  summary_stats : Option BacklogRow
  weekly_summary : List WeeklyRow
  monthly_status : List MonthlyRow
deriving DecidableEq, Repr

/-! ### The handler's individual query / arithmetic steps -/

/-- `float(backlog_row['pending_applications']) if backlog_row and
backlog_row['pending_applications'] else 0` (line 96). -/
def currentBacklogQ (db : Database) : ℚ :=
  match db.summary_stats with
  | none => 0
  | some r => truthy r.pending_applications 0

/-- `current_week_start = today - timedelta(days=today.weekday())`
(line 100), as a day count. -/
def currentWeekStart (today : PyDate) : Int :=
  today.toDays - today.weekday

/-- Insert a row into a list sorted by descending `week_start`. -/
def insertWeekDesc (r : WeeklyRow) : List WeeklyRow → List WeeklyRow
  | [] => [r]
  | x :: xs =>
      if x.week_start.toDays ≤ r.week_start.toDays then r :: x :: xs
      else x :: insertWeekDesc r xs

/-- Sort weekly rows by descending `week_start`
(the handler's `ORDER BY week_start DESC`). -/
def sortWeeksDesc : List WeeklyRow → List WeeklyRow
  | [] => []
  | x :: xs => insertWeekDesc x (sortWeeksDesc xs)

/-- The subquery of lines 103–112:
`SELECT week_start, total_applications FROM weekly_summary
 WHERE week_start < current_week_start ORDER BY week_start DESC LIMIT 4`. -/
def recentWeeks (weekly : List WeeklyRow) (cws : Int) : List WeeklyRow :=
  (sortWeeksDesc (weekly.filter fun r => decide (r.week_start.toDays < cws))).take 4

/-- `SELECT AVG(total_applications) ... ` over `recentWeeks`; the SQL
`AVG` of an empty set is `NULL`. -/
def avgWeeklyApps (weekly : List WeeklyRow) (cws : Int) : Option ℚ :=
  if (recentWeeks weekly cws).isEmpty then none
  else
    some (((recentWeeks weekly cws).map WeeklyRow.total_applications).sum /
      ((recentWeeks weekly cws).length : ℚ))

/-- `weekly_rate = float(weekly_row['avg_weekly_apps']) if weekly_row and
weekly_row['avg_weekly_apps'] else 2900` (line 116). -/
def weeklyRateQ (weekly : List WeeklyRow) (today : PyDate) : ℚ :=
  truthy (avgWeeklyApps weekly (currentWeekStart today)) 2900

/-- The `SUM(count)` query of lines 140–166: rows with
`status = 'ANALYST REVIEW'` and `(year < submit_year) OR (year =
submit_year AND CASE month ... END < submit_month_num)`; a row whose
month name is not one of the twelve gives `NULL` in the `CASE`, and
`NULL < n` is not satisfied.  `SUM` of no rows is `NULL`, which the
handler's truthiness test turns into `0`, coinciding with the empty sum. -/
def casesBeforeMonthQ (monthly : List MonthlyRow) (sy sm : Int) : ℚ :=
  ((monthly.filter fun r =>
      r.status == "ANALYST REVIEW" &&
      (decide (r.year < sy) ||
        (r.year == sy &&
          match monthToNum r.month with
          | some n => decide (n < sm)
          | none => false))).map MonthlyRow.count).sum

/-- The same-month query of lines 169–177:
`SELECT count FROM monthly_status WHERE status = 'ANALYST REVIEW' AND
 year = %s AND month = %s` + `fetchone` (first matching row), then
`float(row['count']) if row and row['count'] else 0`. -/
def sameMonthTotalQ (monthly : List MonthlyRow) (sy : Int) (mName : String) : ℚ :=
  truthy
    ((monthly.find? fun r =>
        r.status == "ANALYST REVIEW" && r.year == sy && r.month == mName).map
      MonthlyRow.count)
    0

/-- `letter_position = ord(employer_letter) - ord('A')` (line 180),
for the already-uppercased single-character key. -/
def letterPositionI (u : Char) : Int :=
  (u.toNat : Int) - 65

/-- Lines 184–188: `month_position_factor =
(letter_position / 25.0) * 0.8 + ((day - 1) / 30.0) * 0.2`. -/
def monthPositionFactor (lp : Int) (day : Nat) : ℚ :=
  ((lp : ℚ) / 25) * (8/10) + (((day : ℚ) - 1) / 30) * (2/10)

/-- Lines 191–197: `raw_queue_position = cases_before_month +
same_month_total * month_position_factor` (kept as an exact number;
`adjusted_queue_position` is the same value). -/
def rawQueuePositionQ (monthly : List MonthlyRow) (submit : PyDate) (u : Char) : ℚ :=
  casesBeforeMonthQ monthly submit.year (monthToNumD (monthName submit.month)) +
    sameMonthTotalQ monthly submit.year (monthName submit.month) *
      monthPositionFactor (letterPositionI u) submit.day

/-- Line 200: `queue_weeks = adjusted_queue_position / weekly_rate if
weekly_rate > 0 else 0`. -/
def queueWeeksQ (db : Database) (submit : PyDate) (u : Char) (today : PyDate) : ℚ :=
  let wr := weeklyRateQ db.weekly_summary today
  if wr > 0 then rawQueuePositionQ db.monthly_status submit u / wr else 0

/-- Line 201: `queue_days = int(queue_weeks * 7)` (also `remaining_days`,
line 204). -/
def queueDaysI (db : Database) (submit : PyDate) (u : Char) (today : PyDate) : Int :=
  pyInt (queueWeeksQ db submit u today * 7)

/-! ### Request, validation, response and audit record -/

/-- The pydantic request model `DateSubmissionRequest` (lines 23–27). -/
structure DateSubmissionRequest where
  submit_date : PyDate
  employer_first_letter : String
  case_number : String
  recaptcha_token : String
deriving DecidableEq, Repr

/-- Pydantic's validation of `employer_first_letter`
(`Field(..., min_length=1, max_length=1)`): the length constraints are
the only content validation the model performs on the key. -/
def validateRequest (r : DateSubmissionRequest) : Bool :=
  1 ≤ r.employer_first_letter.length && r.employer_first_letter.length ≤ 1

/-- `request.employer_first_letter.upper()` (line 44) at the character
level: the validated key has exactly one character, which Python's
`str.upper` maps through ASCII uppercasing.  (`'A'` is unreachable on
validated input.) -/
def routeLetter (s : String) : Char :=
  match s.toList with
  | c :: _ => c.toUpper
  | [] => 'A'

/-- The JSON body returned by the handler (lines 225–254); the
`queue_analysis` and `factors_considered` sub-objects are flattened.
Date-valued fields hold the `PyDate.toDays` day count of the
`isoformat`-ted date.  The database-generated `request_id` is external
nondeterminism and is omitted. -/
structure PredictionResponse where
  submit_date : PyDate
  employer_first_letter : String
  case_number : String
  estimated_completion_date : Int
  upper_bound_date : Int
  estimated_days : Int
  remaining_days : Int
  upper_bound_days : Int
  current_backlog : Int
  raw_queue_position : Int
  adjusted_queue_position : Int
  weekly_processing_rate : Int
  daily_processing_rate : Int
  estimated_queue_wait_weeks : ℚ
  days_already_in_queue : Int
  employer_letter_impact : ℚ
  queue_time : Int
  letter_priority : String
  processing_impact : String
  confidence_level : ℚ
deriving DecidableEq, Repr

/-- The `prediction_requests` audit row: the INSERT of lines 66–71
creates it with `result = none`; the UPDATE of lines 216–222 attaches
`(estimated_completion_date, estimated_days, confidence_level)`. -/
structure AuditRecord where
  submit_date : PyDate
  employer_first_letter : String
  case_number : String
  request_timestamp : PyDate
  result : Option (Int × Int × ℚ)
deriving DecidableEq, Repr

/-- The audit row as inserted before any aggregate query runs
(lines 66–73). -/
def pendingAudit (req : DateSubmissionRequest) (today : PyDate) : AuditRecord :=
  { submit_date := req.submit_date
    employer_first_letter := (routeLetter req.employer_first_letter).toString
    case_number := req.case_number
    request_timestamp := today
    result := none }

/-! ### The handler's successful computation (lines 96–254) -/

/-- The response computed by `predict_from_submit_date` once the
`processing_times` row was found, mirroring lines 96–254 of
`predictions.py`.  The handler also computes `base_days` /
`upper_base_days` from the percentile row (lines 119–120), but those two
locals are never read afterwards — no response field depends on them, so
they are omitted here (see the interference theorem for this fact). -/
def computeResponse (req : DateSubmissionRequest) (db : Database) (today : PyDate) :
    PredictionResponse :=
  let submit_date := req.submit_date
  let u := routeLetter req.employer_first_letter
  let weekly_rate := weeklyRateQ db.weekly_summary today
  let days_in_queue : Int := max 0 (today.toDays - submit_date.toDays)
  let lp := letterPositionI u
  let letter_percentage : ℚ := (lp : ℚ) / 25
  let raw_queue_position := rawQueuePositionQ db.monthly_status submit_date u
  let queue_weeks := queueWeeksQ db submit_date u today
  let queue_days := pyInt (queue_weeks * 7)
  let remaining_days := queue_days
  let total_journey_days := days_in_queue + remaining_days
  let estimated_completion_date := today.toDays + remaining_days
  let upper_bound_date := today.toDays + pyInt ((remaining_days : ℚ) * (23/20))
  { submit_date := submit_date
    employer_first_letter := u.toString
    case_number := req.case_number
    estimated_completion_date := estimated_completion_date
    upper_bound_date := upper_bound_date
    estimated_days := total_journey_days
    remaining_days := remaining_days
    upper_bound_days := pyInt ((total_journey_days : ℚ) * (23/20))
    current_backlog := pyInt (currentBacklogQ db)
    raw_queue_position := pyInt raw_queue_position
    adjusted_queue_position := pyInt raw_queue_position
    weekly_processing_rate := pyInt weekly_rate
    daily_processing_rate := pyInt (weekly_rate / 7)
    estimated_queue_wait_weeks := (pyRound (queue_weeks * 10) : ℚ) / 10
    days_already_in_queue := days_in_queue
    employer_letter_impact := (pyRound ((letter_percentage - 1/2) * 160) : ℚ)
    queue_time := queue_days
    letter_priority :=
      if lp < 9 then "HIGH" else if lp < 18 then "MEDIUM" else "LOW"
    processing_impact :=
      if lp < 9 then "FASTER" else if lp < 18 then "AVERAGE" else "SLOWER"
    confidence_level := 8/10 }

/-- The audit row after the UPDATE of lines 216–222. -/
def completedAudit (req : DateSubmissionRequest) (db : Database) (today : PyDate) :
    AuditRecord :=
  let resp := computeResponse req db today
  { pendingAudit req today with
      result := some (resp.estimated_completion_date, resp.estimated_days, 8/10) }

/-- The `POST /predictions/from-date` handler `predict_from_submit_date`
(lines 29–257), as a function of the reCAPTCHA verification outcome, the
validated request, the observable database state and `date.today()`.
Result: the HTTP outcome (`Except (status, detail)`) paired with the
final contents of the handler's `prediction_requests` writes.

Control flow of the source: reCAPTCHA failure → 400 before anything else;
otherwise the audit row is INSERTed first (lines 66–73); a missing
`processing_times` row raises `HTTPException(404, "No processing time
data available")` (line 86), which the blanket `except Exception` handler
of lines 256–257 converts to status 500 with detail
`f"Error predicting completion date: {str(e)}"` (Starlette's
`HTTPException.__str__` is `f"{status_code}: {detail}"`); otherwise the
computation of lines 96–254 runs and the audit row is completed. -/
def predict_from_submit_date (recaptcha_ok : Bool) (req : DateSubmissionRequest)
    (db : Database) (today : PyDate) :
    Except (Nat × String) PredictionResponse × List AuditRecord :=
  if recaptcha_ok = false then
    (.error (400, "Invalid reCAPTCHA. Please try again."), [])
  else
    match db.processing_times with
    | none =>
        (.error (500, "Error predicting completion date: 404: No processing time data available"),
         [pendingAudit req today])
    | some _ =>
        (.ok (computeResponse req db today), [completedAudit req db today])

/-! ### The secondary predictor: `services/prediction.py` -/

/-- The latest `prediction_models` row as read by
`PredictionService.predict_from_date` (lines 120–122): base processing
time, backlog factor, and the JSON-decoded seasonal factor dictionaries
(keys are the decimal strings of month numbers 1–12 and weekday numbers
0–6). -/
structure PredictionModelRow where
  base_processing_time : ℚ
  backlog_factor : ℚ
  seasonal_monthly : List (String × ℚ)
  seasonal_daily : List (String × ℚ)
deriving DecidableEq, Repr

/-- The database state visible to `predict_from_date`: the count of
`CaseData` rows with `processed_date IS NULL` (lines 115–117) and the
latest prediction model row, if any. -/
structure ServiceDb where
  backlog : Nat
  model : Option PredictionModelRow
deriving DecidableEq, Repr

/-- Python `dict.get(key, default)` over a JSON object modelled as an
association list. -/
def dictGetD (l : List (String × ℚ)) (k : String) (d : ℚ) : ℚ :=
  match l.find? fun p => p.1 == k with
  | some p => p.2
  | none => d

/-- The default seasonal factors built when no model row exists
(lines 128–131): `{"monthly": {str(i): 1.0 for i in range(1, 13)},
"daily": {str(i): 1.0 for i in range(7)}}`. -/
def defaultMonthlyFactors : List (String × ℚ) :=
  (List.range 12).map fun i => (toString (i + 1), 1)

/-- Default daily seasonal factors, all `1.0` (lines 128–131). -/
def defaultDailyFactors : List (String × ℚ) :=
  (List.range 7).map fun i => (toString i, 1)

/-- `PredictionService._get_seasonal_factor` (lines 182–199):
`monthly.get(str(month), 1.0) * daily.get(str(weekday()), 1.0)`. -/
def get_seasonal_factor (submit_date : PyDate)
    (monthly daily : List (String × ℚ)) : ℚ :=
  dictGetD monthly (toString submit_date.month) 1 *
    dictGetD daily (toString submit_date.weekday) 1

/-- `PredictionService._calculate_processing_time` (lines 161–180):
`round((base_time + backlog * backlog_factor) * seasonal_factor)`. -/
def calculate_processing_time (submit_date : PyDate) (base_time : ℚ)
    (backlog : Nat) (backlog_factor : ℚ)
    (monthly daily : List (String × ℚ)) : Int :=
  pyRound ((base_time + (backlog : ℚ) * backlog_factor) *
    get_seasonal_factor submit_date monthly daily)

/-- Errors a call into `services/prediction.py` can raise: the
module-level `ImportError` (a named import absent from the target
module) and pydantic's `ValidationError` (required model fields missing
from the constructor's keyword arguments). -/
inductive ServiceError where
  | importError (module : String) (name : String)
  | validationError (missing : List String)
deriving DecidableEq, Repr

/-- The module-level names `models/database.py` actually defines
(lines 26, 68, 78, 110, 121): connection helpers only. -/
def databaseModuleNames : List String :=
  ["get_postgres_connection", "MockPostgresConnection", "MockCursor", "init_db",
   "get_db"]

/-- The names `services/prediction.py` imports from `models.database`
(line 9; the absolute-import fallback of line 14 targets the same
module). -/
def predictionServiceImports : List String :=
  ["CaseData", "DailyMetrics", "PredictionModel"]

/-- Python's `from module import a, b, c`: the first requested name the
module does not define raises `ImportError`.  Both branches of the
try/except at lines 7–16 import the same names from the same module, so
a failure of the relative import is not recovered by the fallback. -/
def importFrom (moduleNames wanted : List String) (module : String) :
    Except ServiceError Unit :=
  match wanted.find? fun n => !(moduleNames.contains n) with
  | some n => .error (.importError module n)
  | none => .ok ()

/-- The result model `CasePrediction` (schemas.py lines 123–154):
it inherits `ProcessingTimePrediction`, so `submit_date`,
`estimated_completion_date`, `upper_bound_date`, `estimated_days`,
`upper_bound_days`, `factors_considered` and `confidence_level` are all
required, plus the required `case_id`; only `note` is optional.
Date-valued fields carry the day count; the factors dict holds the
body's numeric diagnostics. -/
structure CasePrediction where
  submit_date : PyDate
  estimated_completion_date : Int
  upper_bound_date : Int
  estimated_days : Int
  upper_bound_days : Int
  factors_considered : List (String × ℚ)
  confidence_level : ℚ
  case_id : String
  note : Option String
deriving DecidableEq, Repr

/-- The keyword arguments a call site passes to the `CasePrediction`
constructor: `none` marks an argument the call does not supply.
`case_identifier` is not a declared field of the model — under
pydantic's default configuration an unknown keyword is ignored. -/
structure CasePredictionKwargs where
  case_identifier : Option String
  submit_date : Option PyDate
  estimated_completion_date : Option Int
  upper_bound_date : Option Int
  estimated_days : Option Int
  upper_bound_days : Option Int
  factors_considered : Option (List (String × ℚ))
  confidence_level : Option ℚ
  case_id : Option String
  note : Option String
deriving DecidableEq, Repr

/-- The required `CasePrediction` fields absent from a keyword-argument
set, in field-declaration order (as pydantic reports them). -/
def missingFields (k : CasePredictionKwargs) : List String :=
  (if k.submit_date.isNone then ["submit_date"] else []) ++
  (if k.estimated_completion_date.isNone then ["estimated_completion_date"] else []) ++
  (if k.upper_bound_date.isNone then ["upper_bound_date"] else []) ++
  (if k.estimated_days.isNone then ["estimated_days"] else []) ++
  (if k.upper_bound_days.isNone then ["upper_bound_days"] else []) ++
  (if k.factors_considered.isNone then ["factors_considered"] else []) ++
  (if k.confidence_level.isNone then ["confidence_level"] else []) ++
  (if k.case_id.isNone then ["case_id"] else [])

/-- Pydantic construction of `CasePrediction`: if every required field
is supplied the model is returned; otherwise `ValidationError` is
raised naming the missing fields. -/
def mkCasePrediction (k : CasePredictionKwargs) :
    Except ServiceError CasePrediction :=
  match k.submit_date, k.estimated_completion_date, k.upper_bound_date,
      k.estimated_days, k.upper_bound_days, k.factors_considered,
      k.confidence_level, k.case_id with
  | some sd, some ecd, some ubd, some ed, some ubdy, some fc, some cl, some cid =>
      .ok ⟨sd, ecd, ubd, ed, ubdy, fc, cl, cid, k.note⟩
  | _, _, _, _, _, _, _, _ =>
      .error (.validationError (missingFields k))

/-- The body of `PredictionService.predict_from_date` (lines 101–159) as
it would execute if the module's imports succeeded: with no model row it
uses `base_time = 30`, `backlog_factor = 0.01` and all-ones seasonal
factors (lines 124–131), computes the processing days and the completion
date `submit_date + timedelta(days=processing_days)`, and then calls the
`CasePrediction` constructor with only `case_identifier`, `submit_date`,
`estimated_completion_date`, `confidence_level` and `factors_considered`
as keyword arguments (lines 153–159). -/
def predict_from_date_body (db : ServiceDb) (submit_date : PyDate) :
    Except ServiceError CasePrediction :=
  let bt := match db.model with
    | none => (30 : ℚ)
    | some m => m.base_processing_time
  let bf := match db.model with
    | none => (1/100 : ℚ)
    | some m => m.backlog_factor
  let monthly := match db.model with
    | none => defaultMonthlyFactors
    | some m => m.seasonal_monthly
  let daily := match db.model with
    | none => defaultDailyFactors
    | some m => m.seasonal_daily
  let processing_days := calculate_processing_time submit_date bt db.backlog bf monthly daily
  mkCasePrediction
    { case_identifier := some ("HYPO-" ++ submit_date.isoformat)
      submit_date := some submit_date
      estimated_completion_date := some (submit_date.toDays + processing_days)
      upper_bound_date := none
      estimated_days := none
      upper_bound_days := none
      factors_considered := some
        [("base_processing_time", bt),
         ("current_backlog", (db.backlog : ℚ)),
         ("backlog_factor", bf),
         ("submit_month", (submit_date.month : ℚ)),
         ("seasonal_adjustment", get_seasonal_factor submit_date monthly daily)]
      confidence_level := some (8/10)
      case_id := none
      note := none }

/-- `PredictionService.predict_from_date` as callable from outside:
loading `services/prediction.py` first executes its imports, and
`models/database.py` defines none of the three requested names, so every
call fails before the body runs; the body itself, were it reached, ends
in the failing constructor call of `predict_from_date_body`. -/
def predict_from_date (db : ServiceDb) (submit_date : PyDate) :
    Except ServiceError CasePrediction :=
  match importFrom databaseModuleNames predictionServiceImports "models.database" with
  | .error e => .error e
  | .ok _ => predict_from_date_body db submit_date

/-! ### Helper lemmas -/

theorem pyInt_of_nonneg {q : ℚ} (h : 0 ≤ q) : pyInt q = ⌊q⌋ := by
  unfold pyInt
  rw [if_neg (not_lt.mpr h)]

theorem pyInt_nonneg {q : ℚ} (h : 0 ≤ q) : 0 ≤ pyInt q := by
  rw [pyInt_of_nonneg h]
  exact Int.floor_nonneg.mpr h

theorem le_pyInt_mul_margin {r : Int} (h : 0 ≤ r) :
    r ≤ pyInt ((r : ℚ) * (23/20)) := by
  have hq : (0 : ℚ) ≤ (r : ℚ) * (23/20) := by positivity
  rw [pyInt_of_nonneg hq]
  rw [Int.le_floor]
  nlinarith [show (0:ℚ) ≤ (r:ℚ) from by exact_mod_cast h]

theorem mem_insertWeekDesc {x r : WeeklyRow} :
    ∀ {l : List WeeklyRow}, x ∈ insertWeekDesc r l → x = r ∨ x ∈ l := by
  intro l
  induction l with
  | nil =>
      intro hx
      exact Or.inl (by simpa [insertWeekDesc] using hx)
  | cons a as ih =>
      intro hx
      unfold insertWeekDesc at hx
      split at hx
      · rcases List.mem_cons.mp hx with h1 | h1
        · exact Or.inl h1
        · exact Or.inr h1
      · rcases List.mem_cons.mp hx with h1 | h1
        · exact Or.inr (List.mem_cons.mpr (Or.inl h1))
        · rcases ih h1 with h2 | h2
          · exact Or.inl h2
          · exact Or.inr (List.mem_cons.mpr (Or.inr h2))

theorem mem_sortWeeksDesc {x : WeeklyRow} :
    ∀ {l : List WeeklyRow}, x ∈ sortWeeksDesc l → x ∈ l := by
  intro l
  induction l with
  | nil =>
      intro hx
      simp [sortWeeksDesc] at hx
  | cons a as ih =>
      intro hx
      unfold sortWeeksDesc at hx
      rcases mem_insertWeekDesc hx with h1 | h1
      · exact List.mem_cons.mpr (Or.inl h1)
      · exact List.mem_cons.mpr (Or.inr (ih h1))

theorem mem_of_mem_recentWeeks {x : WeeklyRow} {weekly : List WeeklyRow} {cws : Int}
    (h : x ∈ recentWeeks weekly cws) : x ∈ weekly := by
  unfold recentWeeks at h
  have h1 := List.take_subset 4 _ h
  have h2 := mem_sortWeeksDesc h1
  exact (List.mem_filter.mp h2).1

/-- With only non-negative weekly totals in the store, the effective
weekly rate is positive: a present non-zero average is positive, and
both the empty and the zero-average case fall back to the positive
constant 2900. -/
theorem weeklyRateQ_pos {weekly : List WeeklyRow} {today : PyDate}
    (h : ∀ r ∈ weekly, 0 ≤ r.total_applications) :
    0 < weeklyRateQ weekly today := by
  have key : ∀ o : Option ℚ, (∀ v, o = some v → 0 ≤ v) → 0 < truthy o 2900 := by
    intro o ho
    cases o with
    | none => norm_num [truthy]
    | some v =>
        have hv := ho v rfl
        by_cases hz : v = 0
        · simp [truthy, hz]
        · simpa [truthy, hz] using lt_of_le_of_ne hv (Ne.symm hz)
  refine key _ ?_
  intro v hv
  unfold avgWeeklyApps at hv
  by_cases he : (recentWeeks weekly (currentWeekStart today)).isEmpty
  · rw [if_pos he] at hv
    exact absurd hv (by simp)
  · rw [if_neg he] at hv
    have hsum :
        0 ≤ ((recentWeeks weekly (currentWeekStart today)).map
          WeeklyRow.total_applications).sum := by
      refine List.sum_nonneg ?_
      intro x hx
      rcases List.mem_map.mp hx with ⟨r, hr, hrx⟩
      subst hrx
      exact h r (mem_of_mem_recentWeeks hr)
    rw [← Option.some.inj hv]
    exact div_nonneg hsum (Nat.cast_nonneg _)

/-- Projection lemmas for the response record: each field as the
corresponding named computation step. -/
theorem computeResponse_days_in_queue (req : DateSubmissionRequest)
    (db : Database) (today : PyDate) :
    (computeResponse req db today).days_already_in_queue =
      max 0 (today.toDays - req.submit_date.toDays) := rfl

theorem computeResponse_remaining_days (req : DateSubmissionRequest)
    (db : Database) (today : PyDate) :
    (computeResponse req db today).remaining_days =
      queueDaysI db req.submit_date (routeLetter req.employer_first_letter) today := rfl

theorem computeResponse_estimated_days (req : DateSubmissionRequest)
    (db : Database) (today : PyDate) :
    (computeResponse req db today).estimated_days =
      max 0 (today.toDays - req.submit_date.toDays) +
        queueDaysI db req.submit_date (routeLetter req.employer_first_letter) today := rfl

theorem computeResponse_completion (req : DateSubmissionRequest)
    (db : Database) (today : PyDate) :
    (computeResponse req db today).estimated_completion_date =
      today.toDays +
        queueDaysI db req.submit_date (routeLetter req.employer_first_letter) today := rfl

theorem computeResponse_upper_bound (req : DateSubmissionRequest)
    (db : Database) (today : PyDate) :
    (computeResponse req db today).upper_bound_date =
      today.toDays +
        pyInt ((queueDaysI db req.submit_date (routeLetter req.employer_first_letter) today : ℚ)
          * (23/20)) := rfl

theorem computeResponse_letter (req : DateSubmissionRequest)
    (db : Database) (today : PyDate) :
    (computeResponse req db today).employer_first_letter =
      (routeLetter req.employer_first_letter).toString := rfl

theorem computeResponse_weekly_rate (req : DateSubmissionRequest)
    (db : Database) (today : PyDate) :
    (computeResponse req db today).weekly_processing_rate =
      pyInt (weeklyRateQ db.weekly_summary today) := rfl

theorem computeResponse_raw_position (req : DateSubmissionRequest)
    (db : Database) (today : PyDate) :
    (computeResponse req db today).raw_queue_position =
      pyInt (rawQueuePositionQ db.monthly_status req.submit_date
        (routeLetter req.employer_first_letter)) := rfl

theorem predict_eq_ok {db : Database} {prow : ProcessingRow}
    (hp : db.processing_times = some prow)
    (req : DateSubmissionRequest) (today : PyDate) :
    predict_from_submit_date true req db today =
      (.ok (computeResponse req db today), [completedAudit req db today]) := by
  unfold predict_from_submit_date
  rw [hp]
  rfl

/-! ### Concrete fixtures -/

/-- A minimal database state with a processing-times row present and all
other aggregates empty. -/
def dbBase : Database :=
  { processing_times := some ⟨some 150, some 300⟩
    summary_stats := none
    weekly_summary := []
    monthly_status := [] }

/-- The round-trip fixture of the specification: 10000 pending cases in
earlier months, 5000 in the submission month. -/
def dbFixture : Database :=
  { processing_times := some ⟨some 150, some 300⟩
    summary_stats := none
    weekly_summary := []
    monthly_status := [⟨2023, "December", "ANALYST REVIEW", 10000⟩,
                       ⟨2024, "January", "ANALYST REVIEW", 5000⟩] }

/-- A database state whose `processing_times` relation is empty. -/
def dbNoPerc : Database :=
  { processing_times := none
    summary_stats := none
    weekly_summary := []
    monthly_status := [] }

/-! ### Claim C1 -/

/-- C1, counterexample: with `submit_date` = 2024-01-16 strictly after
`today` = 2024-01-15, `predict_from_submit_date` does NOT reject the
request: it returns a successful estimate and inserts a prediction
record, refuting the claim that a future `submitDate` is rejected with an
input-validation error with no record produced. -/
theorem future_submit_date_accepted_cex :
    PyDate.toDays ⟨2024, 1, 16⟩ > PyDate.toDays ⟨2024, 1, 15⟩ ∧
    (predict_from_submit_date true ⟨⟨2024, 1, 16⟩, "A", "CASE123", "tok"⟩ dbBase
        ⟨2024, 1, 15⟩).1.isOk = true ∧
    (predict_from_submit_date true ⟨⟨2024, 1, 16⟩, "A", "CASE123", "tok"⟩ dbBase
        ⟨2024, 1, 15⟩).2 ≠ [] := by
  refine ⟨by decide, rfl, by decide⟩

/-- C1 (amended): `predict_from_submit_date` performs no validation of
`submit_date` against today.  A request whose `submit_date` is strictly
after today is processed normally whenever a processing-times row
exists: a successful estimate is returned, the elapsed-days field is
clamped to 0 by `max(0, today - submit_date)`, and a prediction record
is inserted and completed with the result. -/
theorem future_submit_date_no_validation
    {db : Database} {prow : ProcessingRow} (req : DateSubmissionRequest)
    (today : PyDate) (hp : db.processing_times = some prow)
    (hfuture : today.toDays < req.submit_date.toDays) :
    ∃ resp rec, predict_from_submit_date true req db today = (.ok resp, [rec]) ∧
      resp.days_already_in_queue = 0 ∧ rec.result ≠ none := by
  refine ⟨computeResponse req db today, completedAudit req db today,
    predict_eq_ok hp req today, ?_, ?_⟩
  · rw [computeResponse_days_in_queue]
    omega
  · simp [completedAudit]

/-- C1 witness: the amended theorem applied at `submit_date` =
2024-01-16, `today` = 2024-01-15. -/
theorem future_submit_date_no_validation_witness :
    dbBase.processing_times = some ⟨some 150, some 300⟩ ∧
    PyDate.toDays ⟨2024, 1, 15⟩ < PyDate.toDays ⟨2024, 1, 16⟩ ∧
    ∃ resp rec,
      predict_from_submit_date true ⟨⟨2024, 1, 16⟩, "A", "CASE123", "tok"⟩ dbBase
          ⟨2024, 1, 15⟩ = (.ok resp, [rec]) ∧
        resp.days_already_in_queue = 0 ∧ rec.result ≠ none :=
  ⟨rfl, by decide, future_submit_date_no_validation _ _ rfl (by decide)⟩

/-! ### Claim C2 -/

/-- C2, counterexample: with no `processing_times` row, the handler
raises `HTTPException(404, ...)`, which its blanket exception handler
surfaces as a 500 error — it does not return a successful estimate with
the 150/300-day defaults, refuting the claim that aggregate-data
unavailability never produces an error response. -/
theorem missing_percentiles_not_degraded_cex :
    (predict_from_submit_date true ⟨⟨2024, 1, 15⟩, "A", "CASE123", "tok"⟩ dbNoPerc
        ⟨2024, 6, 3⟩).1 =
      .error (500,
        "Error predicting completion date: 404: No processing time data available") ∧
    (predict_from_submit_date true ⟨⟨2024, 1, 15⟩, "A", "CASE123", "tok"⟩ dbNoPerc
        ⟨2024, 6, 3⟩).1.isOk = false :=
  ⟨rfl, rfl⟩

/-- C2 (amended): when no `processing_times` row exists,
`predict_from_submit_date` raises `HTTPException(404, "No processing
time data available")`, re-surfaced by the blanket handler as a 500
error; the p50=150 / p80=300 defaults are applied only when the row
exists with NULL (or zero) percentile values, and no estimate is
produced for a missing row. -/
theorem missing_percentiles_error (req : DateSubmissionRequest) (db : Database)
    (today : PyDate) (hp : db.processing_times = none) :
    (predict_from_submit_date true req db today).1 =
      .error (500,
        "Error predicting completion date: 404: No processing time data available") := by
  simp [predict_from_submit_date, hp]

/-- C2 witness: the amended theorem applied to the empty store. -/
theorem missing_percentiles_error_witness :
    dbNoPerc.processing_times = none ∧
    (predict_from_submit_date true ⟨⟨2024, 1, 15⟩, "A", "CASE123", "tok"⟩ dbNoPerc
        ⟨2024, 6, 3⟩).1 =
      .error (500,
        "Error predicting completion date: 404: No processing time data available") :=
  ⟨rfl, missing_percentiles_error _ _ _ rfl⟩

/-! ### Claim C4 -/

/-- A database state with exactly one complete week of throughput data
(week starting Monday 2024-01-01, total 1000), observed on 2024-06-03. -/
def dbOneWeek : Database :=
  { processing_times := some ⟨some 150, some 300⟩
    summary_stats := none
    weekly_summary := [⟨⟨2024, 1, 1⟩, 1000⟩]
    monthly_status := [] }

/-- C4, counterexample: with exactly one complete week of data (total
1000), the weekly rate used is 1000 — the average of that single sample
— not the 2900 default, refuting the claim that fewer than 3 complete
weeks always yields the default. -/
theorem weekly_rate_single_sample_cex :
    (recentWeeks dbOneWeek.weekly_summary (currentWeekStart ⟨2024, 6, 3⟩)).length = 1 ∧
    weeklyRateQ dbOneWeek.weekly_summary ⟨2024, 6, 3⟩ = 1000 ∧
    (computeResponse ⟨⟨2024, 1, 15⟩, "A", "CASE123", "tok"⟩ dbOneWeek
        ⟨2024, 6, 3⟩).weekly_processing_rate = 1000 ∧
    (1000 : ℚ) ≠ 2900 := by
  refine ⟨by decide, ?_, ?_, by norm_num⟩
  · norm_num [weeklyRateQ, avgWeeklyApps, recentWeeks, sortWeeksDesc, insertWeekDesc,
      currentWeekStart, dbOneWeek, PyDate.toDays, PyDate.weekday, truthy]
  · rw [computeResponse_weekly_rate]
    norm_num [weeklyRateQ, avgWeeklyApps, recentWeeks, sortWeeksDesc, insertWeekDesc,
      currentWeekStart, dbOneWeek, PyDate.toDays, PyDate.weekday, truthy, pyInt]

/-- C4 (amended): the 2900/week default applies exactly when the
weekly average is unavailable (no complete-week rows before the current
week) or zero; with 1 or 2 complete weeks the handler uses the average
of those samples.  In particular, when no complete week exists the
response's weekly rate is the constant 2900. -/
theorem weekly_rate_default_no_complete_weeks
    {db : Database} {prow : ProcessingRow} (req : DateSubmissionRequest)
    (today : PyDate) (hp : db.processing_times = some prow)
    (hw : db.weekly_summary.filter
      (fun r => decide (r.week_start.toDays < currentWeekStart today)) = []) :
    ∃ resp, (predict_from_submit_date true req db today).1 = .ok resp ∧
      resp.weekly_processing_rate = 2900 := by
  refine ⟨computeResponse req db today, by rw [predict_eq_ok hp], ?_⟩
  rw [computeResponse_weekly_rate]
  unfold weeklyRateQ avgWeeklyApps recentWeeks
  rw [hw]
  norm_num [sortWeeksDesc, truthy, pyInt]

/-- C4 witness: the amended theorem applied to a store with no weekly
rows at all. -/
theorem weekly_rate_default_no_complete_weeks_witness :
    dbBase.processing_times = some ⟨some 150, some 300⟩ ∧
    dbBase.weekly_summary.filter
      (fun r => decide (r.week_start.toDays < currentWeekStart ⟨2024, 6, 3⟩)) = [] ∧
    ∃ resp,
      (predict_from_submit_date true ⟨⟨2024, 1, 15⟩, "A", "CASE123", "tok"⟩ dbBase
          ⟨2024, 6, 3⟩).1 = .ok resp ∧
        resp.weekly_processing_rate = 2900 :=
  ⟨rfl, rfl, weekly_rate_default_no_complete_weeks _ _ rfl rfl⟩

/-! ### Claim C5 -/

/-- C5, counterexample: the request key `"5"` — a single character that
is not a letter — passes validation (only length is checked) and the
handler returns a successful estimate, with the non-letter flowing into
the ordinal computation as `ord('5') - ord('A') = -12`; this refutes the
claim that non-letter keys are rejected with a caller input error. -/
theorem nonletter_key_accepted_cex :
    validateRequest ⟨⟨2024, 1, 15⟩, "5", "CASE123", "tok"⟩ = true ∧
    (predict_from_submit_date true ⟨⟨2024, 1, 15⟩, "5", "CASE123", "tok"⟩ dbBase
        ⟨2024, 6, 3⟩).1.isOk = true ∧
    letterPositionI (routeLetter "5") = -12 := by
  refine ⟨rfl, rfl, by decide⟩

/-- C5 (amended): the request model validates `employer_first_letter`
only for length (exactly one character): every single-character key —
letter or not — is accepted, and the handler case-normalizes it to
uppercase before use (the uppercased key is echoed in the response). -/
theorem letter_length_only_validation
    {db : Database} {prow : ProcessingRow} (c : Char) (sd : PyDate)
    (cn tok : String) (today : PyDate)
    (hp : db.processing_times = some prow) :
    validateRequest ⟨sd, ⟨[c]⟩, cn, tok⟩ = true ∧
    ∃ resp,
      (predict_from_submit_date true ⟨sd, ⟨[c]⟩, cn, tok⟩ db today).1 = .ok resp ∧
        resp.employer_first_letter = c.toUpper.toString := by
  refine ⟨rfl, computeResponse ⟨sd, ⟨[c]⟩, cn, tok⟩ db today,
    by rw [predict_eq_ok hp], ?_⟩
  rw [computeResponse_letter]
  rfl

/-- C5 witness: the amended theorem applied at the lowercase letter
`'b'`, normalized to `"B"` in the response. -/
theorem letter_length_only_validation_witness :
    dbBase.processing_times = some ⟨some 150, some 300⟩ ∧
    (validateRequest ⟨⟨2024, 1, 15⟩, ⟨['b']⟩, "CASE123", "tok"⟩ = true ∧
      ∃ resp,
        (predict_from_submit_date true ⟨⟨2024, 1, 15⟩, ⟨['b']⟩, "CASE123", "tok"⟩
            dbBase ⟨2024, 6, 3⟩).1 = .ok resp ∧
          resp.employer_first_letter = Char.toString (Char.toUpper 'b')) :=
  ⟨rfl, letter_length_only_validation 'b' _ _ _ _ rfl⟩

/-! ### Claim C8 -/

/-- C8: the elapsed wait `days_already_in_queue` equals
`max(0, today - submit_date)`, is never subtracted from the remaining
wait — `remaining_days` is exactly the queue-derived `queueDaysI`, whose
definition does not involve the elapsed time — and the reported
`estimated_days` is their sum. -/
theorem elapsed_days_informational
    {db : Database} {prow : ProcessingRow} (req : DateSubmissionRequest)
    (today : PyDate) (hp : db.processing_times = some prow) :
    ∃ resp, (predict_from_submit_date true req db today).1 = .ok resp ∧
      resp.days_already_in_queue = max 0 (today.toDays - req.submit_date.toDays) ∧
      resp.estimated_days = resp.days_already_in_queue + resp.remaining_days ∧
      resp.remaining_days =
        queueDaysI db req.submit_date (routeLetter req.employer_first_letter) today := by
  refine ⟨computeResponse req db today, by rw [predict_eq_ok hp],
    computeResponse_days_in_queue _ _ _, ?_, computeResponse_remaining_days _ _ _⟩
  rw [computeResponse_estimated_days, computeResponse_days_in_queue,
    computeResponse_remaining_days]

/-- C8 witness: the theorem applied at submit 2024-01-15, today
2024-06-03. -/
theorem elapsed_days_informational_witness :
    dbFixture.processing_times = some ⟨some 150, some 300⟩ ∧
    ∃ resp,
      (predict_from_submit_date true ⟨⟨2024, 1, 15⟩, "A", "CASE123", "tok"⟩ dbFixture
          ⟨2024, 6, 3⟩).1 = .ok resp ∧
        resp.days_already_in_queue =
          max 0 (PyDate.toDays ⟨2024, 6, 3⟩ - PyDate.toDays ⟨2024, 1, 15⟩) ∧
        resp.estimated_days = resp.days_already_in_queue + resp.remaining_days ∧
        resp.remaining_days =
          queueDaysI dbFixture ⟨2024, 1, 15⟩ (routeLetter "A") ⟨2024, 6, 3⟩ :=
  ⟨rfl, elapsed_days_informational _ _ rfl⟩

/-! ### Claim C10 -/

theorem computeResponse_adjusted_position (req : DateSubmissionRequest)
    (db : Database) (today : PyDate) :
    (computeResponse req db today).adjusted_queue_position =
      pyInt (rawQueuePositionQ db.monthly_status req.submit_date
        (routeLetter req.employer_first_letter)) := rfl

/-- C10: two runs on the same request and day whose stores agree on
weekly and monthly data but differ arbitrarily in the backlog snapshot
and in the (present) processing-time percentile values produce identical
completion dates, upper bounds, remaining days, estimated days and queue
positions — the fetched backlog and percentile values never enter the
estimate computation. -/
theorem backlog_percentiles_no_interference
    (req : DateSubmissionRequest) (today : PyDate)
    {db1 db2 : Database} {p1 p2 : ProcessingRow}
    (hw : db1.weekly_summary = db2.weekly_summary)
    (hm : db1.monthly_status = db2.monthly_status)
    (h1 : db1.processing_times = some p1)
    (h2 : db2.processing_times = some p2) :
    ∃ r1 r2,
      (predict_from_submit_date true req db1 today).1 = .ok r1 ∧
      (predict_from_submit_date true req db2 today).1 = .ok r2 ∧
      r1.estimated_completion_date = r2.estimated_completion_date ∧
      r1.upper_bound_date = r2.upper_bound_date ∧
      r1.remaining_days = r2.remaining_days ∧
      r1.estimated_days = r2.estimated_days ∧
      r1.raw_queue_position = r2.raw_queue_position ∧
      r1.adjusted_queue_position = r2.adjusted_queue_position := by
  have hq : queueDaysI db1 req.submit_date (routeLetter req.employer_first_letter) today =
      queueDaysI db2 req.submit_date (routeLetter req.employer_first_letter) today := by
    unfold queueDaysI queueWeeksQ
    rw [hw, hm]
  have hr : rawQueuePositionQ db1.monthly_status req.submit_date
        (routeLetter req.employer_first_letter) =
      rawQueuePositionQ db2.monthly_status req.submit_date
        (routeLetter req.employer_first_letter) := by
    rw [hm]
  refine ⟨computeResponse req db1 today, computeResponse req db2 today,
    by rw [predict_eq_ok h1], by rw [predict_eq_ok h2], ?_, ?_, ?_, ?_, ?_, ?_⟩
  · rw [computeResponse_completion, computeResponse_completion, hq]
  · rw [computeResponse_upper_bound, computeResponse_upper_bound, hq]
  · rw [computeResponse_remaining_days, computeResponse_remaining_days, hq]
  · rw [computeResponse_estimated_days, computeResponse_estimated_days, hq]
  · rw [computeResponse_raw_position, computeResponse_raw_position, hr]
  · rw [computeResponse_adjusted_position, computeResponse_adjusted_position, hr]

/-- A copy of the fixture store with a different backlog snapshot and
different (present) percentile values. -/
def dbFixtureAlt : Database :=
  { processing_times := some ⟨some 17, some 42⟩
    summary_stats := some ⟨some 99999⟩
    weekly_summary := dbFixture.weekly_summary
    monthly_status := dbFixture.monthly_status }

/-- C10 witness: the theorem applied to two stores differing only in the
backlog snapshot and percentile values. -/
theorem backlog_percentiles_no_interference_witness :
    dbFixture.weekly_summary = dbFixtureAlt.weekly_summary ∧
    dbFixture.monthly_status = dbFixtureAlt.monthly_status ∧
    ∃ r1 r2,
      (predict_from_submit_date true ⟨⟨2024, 1, 15⟩, "A", "CASE123", "tok"⟩ dbFixture
          ⟨2024, 6, 3⟩).1 = .ok r1 ∧
      (predict_from_submit_date true ⟨⟨2024, 1, 15⟩, "A", "CASE123", "tok"⟩ dbFixtureAlt
          ⟨2024, 6, 3⟩).1 = .ok r2 ∧
      r1.estimated_completion_date = r2.estimated_completion_date ∧
      r1.upper_bound_date = r2.upper_bound_date ∧
      r1.remaining_days = r2.remaining_days ∧
      r1.estimated_days = r2.estimated_days ∧
      r1.raw_queue_position = r2.raw_queue_position ∧
      r1.adjusted_queue_position = r2.adjusted_queue_position :=
  ⟨rfl, rfl,
    backlog_percentiles_no_interference _ _ rfl rfl rfl rfl⟩

/-! ### Claim C7 -/

/-- A store producing `7 * queuePosition / weeklyRate = 18900/2900 ≈
6.517`: 2700 pending cases in an earlier month, default 2900 rate. -/
def dbTrunc : Database :=
  { processing_times := some ⟨some 150, some 300⟩
    summary_stats := none
    weekly_summary := []
    monthly_status := [⟨2023, "December", "ANALYST REVIEW", 2700⟩] }

/-- C7, counterexample: at queue position 2700 with rate 2900, the exact
wait is `7 * 2700/2900 ≈ 6.52` weeks-days; the handler's
`int(queue_weeks * 7)` truncates to 6, while rounding to the nearest
integer gives 7 — refuting the claim that `remainingDays` is computed by
`round`. -/
theorem remaining_days_truncates_cex :
    ∃ resp,
      (predict_from_submit_date true ⟨⟨2024, 1, 1⟩, "A", "CASE123", "tok"⟩ dbTrunc
          ⟨2024, 6, 3⟩).1 = .ok resp ∧
      resp.remaining_days = 6 ∧
      pyRound (queueWeeksQ dbTrunc ⟨2024, 1, 1⟩ 'A' ⟨2024, 6, 3⟩ * 7) = 7 ∧
      (6 : Int) ≠ 7 := by
  refine ⟨computeResponse ⟨⟨2024, 1, 1⟩, "A", "CASE123", "tok"⟩ dbTrunc ⟨2024, 6, 3⟩,
    by rw [predict_eq_ok rfl], ?_, ?_, by decide⟩
  · rw [computeResponse_remaining_days]
    norm_num [queueDaysI, queueWeeksQ, rawQueuePositionQ, casesBeforeMonthQ,
      sameMonthTotalQ, monthPositionFactor, letterPositionI, weeklyRateQ,
      avgWeeklyApps, recentWeeks, sortWeeksDesc, currentWeekStart, truthy,
      monthName, monthToNum, monthToNumD, pyInt, routeLetter, dbTrunc,
      PyDate.toDays, PyDate.weekday]
  · norm_num [queueWeeksQ, rawQueuePositionQ, casesBeforeMonthQ,
      sameMonthTotalQ, monthPositionFactor, letterPositionI, weeklyRateQ,
      avgWeeklyApps, recentWeeks, sortWeeksDesc, currentWeekStart, truthy,
      monthName, monthToNum, monthToNumD, pyRound, dbTrunc,
      PyDate.toDays, PyDate.weekday]

/-- C7 (amended): `remaining_days` is `int(queue_weeks * 7)` — truncation
toward zero, which on the non-negative values arising here is the floor,
not rounding to nearest; at the specification's fixture (10000 cases in
earlier months, 5000 in the submission month, day 15, letter 'A', rate
2900) truncation and rounding agree and give 25. -/
theorem remaining_days_truncation
    {db : Database} {prow : ProcessingRow} (req : DateSubmissionRequest)
    (today : PyDate) (hp : db.processing_times = some prow) :
    ∃ resp, (predict_from_submit_date true req db today).1 = .ok resp ∧
      resp.remaining_days =
        pyInt (queueWeeksQ db req.submit_date (routeLetter req.employer_first_letter)
          today * 7) ∧
      ∀ q : ℚ, 0 ≤ q → pyInt q = ⌊q⌋ := by
  exact ⟨computeResponse req db today, by rw [predict_eq_ok hp],
    computeResponse_remaining_days _ _ _, fun q hq => pyInt_of_nonneg hq⟩

/-- C7 witness: the amended theorem at the specification's round-trip
fixture, where the truncated value is 25 (agreeing with the spec's
rounded 25). -/
theorem remaining_days_truncation_witness :
    dbFixture.processing_times = some ⟨some 150, some 300⟩ ∧
    (∃ resp,
      (predict_from_submit_date true ⟨⟨2024, 1, 15⟩, "A", "CASE123", "tok"⟩ dbFixture
          ⟨2024, 6, 3⟩).1 = .ok resp ∧
      resp.remaining_days =
        pyInt (queueWeeksQ dbFixture ⟨2024, 1, 15⟩ (routeLetter "A") ⟨2024, 6, 3⟩ * 7) ∧
      ∀ q : ℚ, 0 ≤ q → pyInt q = ⌊q⌋) ∧
    pyInt (queueWeeksQ dbFixture ⟨2024, 1, 15⟩ (routeLetter "A") ⟨2024, 6, 3⟩ * 7) = 25 := by
  refine ⟨rfl, remaining_days_truncation _ _ rfl, ?_⟩
  have hA : Char.toNat (Char.toUpper 'A') = 65 := by decide
  norm_num [queueWeeksQ, rawQueuePositionQ, casesBeforeMonthQ,
    sameMonthTotalQ, monthPositionFactor, letterPositionI, weeklyRateQ,
    avgWeeklyApps, recentWeeks, sortWeeksDesc, currentWeekStart, truthy,
    monthName, monthToNum, monthToNumD, pyInt, routeLetter, dbFixture, hA,
    PyDate.toDays, PyDate.weekday]

/-! ### Claim C3 -/

/-- The specification's formulation of `casesBeforeMonth`: the sum of
pending-review counts over all `(year, month)` buckets strictly before
the submission month in chronological (lexicographic) order, the month
name converted through the fixed twelve-entry mapping. -/
def casesBeforeSpecQ (monthly : List MonthlyRow) (sy sm : Int) : ℚ :=
  ((monthly.filter fun r =>
      r.status == "ANALYST REVIEW" &&
      (decide (r.year < sy) ||
        (r.year == sy && decide (monthToNumD r.month < sm)))).map
    MonthlyRow.count).sum

/-- On stores whose month names are all valid calendar names, the
handler's SQL `CASE`-based filter coincides with the specification's
strictly-before-bucket filter. -/
theorem casesBefore_eq_spec {monthly : List MonthlyRow} (sy sm : Int)
    (hv : ∀ r ∈ monthly, (monthToNum r.month).isSome) :
    casesBeforeMonthQ monthly sy sm = casesBeforeSpecQ monthly sy sm := by
  unfold casesBeforeMonthQ casesBeforeSpecQ
  refine congrArg List.sum (congrArg (List.map MonthlyRow.count) (List.filter_congr ?_))
  intro r hr
  rcases Option.isSome_iff_exists.mp (hv r hr) with ⟨n, hn⟩
  simp [hn, monthToNumD]

/-- C3: the handler's internal queue position is exactly
`casesBeforeMonth + sameMonthTotal * (0.8 * (letterOrdinal / 25) +
0.2 * ((dayOfMonth - 1) / 30))` with `letterOrdinal = ord(letter) -
ord('A')` for the uppercased key, where `casesBeforeMonth` sums
pending-review counts over the buckets strictly before the submission
month; the exact (fractional) value is kept unrounded — the response's
queue-position field is its `int()` image and the remaining-days value
divides the unrounded position by the weekly rate before the single
final truncation. -/
theorem queue_position_formula
    {db : Database} {prow : ProcessingRow} (c : Char) (sd : PyDate)
    (cn tok : String) (today : PyDate)
    (hp : db.processing_times = some prow)
    (hv : ∀ r ∈ db.monthly_status, (monthToNum r.month).isSome) :
    ∃ resp,
      (predict_from_submit_date true ⟨sd, ⟨[c]⟩, cn, tok⟩ db today).1 = .ok resp ∧
      rawQueuePositionQ db.monthly_status sd c.toUpper =
        casesBeforeSpecQ db.monthly_status sd.year (monthToNumD (monthName sd.month)) +
          sameMonthTotalQ db.monthly_status sd.year (monthName sd.month) *
            ((8/10) * (((c.toUpper.toNat : ℚ) - 65) / 25) +
              (2/10) * (((sd.day : ℚ) - 1) / 30)) ∧
      resp.raw_queue_position =
        pyInt (rawQueuePositionQ db.monthly_status sd c.toUpper) ∧
      resp.remaining_days = pyInt (queueWeeksQ db sd c.toUpper today * 7) := by
  refine ⟨computeResponse ⟨sd, ⟨[c]⟩, cn, tok⟩ db today,
    by rw [predict_eq_ok hp], ?_, ?_, ?_⟩
  · unfold rawQueuePositionQ monthPositionFactor letterPositionI
    rw [casesBefore_eq_spec _ _ hv]
    push_cast
    ring
  · rw [computeResponse_raw_position]
    rfl
  · rw [computeResponse_remaining_days]
    rfl

/-- C3 witness: the formula at the fixture store (10000 pending before,
5000 in January 2024), submit 2024-01-15, letter 'A'. -/
theorem queue_position_formula_witness :
    dbFixture.processing_times = some ⟨some 150, some 300⟩ ∧
    (∀ r ∈ dbFixture.monthly_status, (monthToNum r.month).isSome) ∧
    ∃ resp,
      (predict_from_submit_date true ⟨⟨2024, 1, 15⟩, ⟨['A']⟩, "CASE123", "tok"⟩
          dbFixture ⟨2024, 6, 3⟩).1 = .ok resp ∧
      rawQueuePositionQ dbFixture.monthly_status ⟨2024, 1, 15⟩ (Char.toUpper 'A') =
        casesBeforeSpecQ dbFixture.monthly_status (2024 : Int)
            (monthToNumD (monthName 1)) +
          sameMonthTotalQ dbFixture.monthly_status (2024 : Int) (monthName 1) *
            ((8/10) * (((Char.toNat (Char.toUpper 'A') : ℚ) - 65) / 25) +
              (2/10) * ((((15 : Nat) : ℚ) - 1) / 30)) ∧
      resp.raw_queue_position =
        pyInt (rawQueuePositionQ dbFixture.monthly_status ⟨2024, 1, 15⟩
          (Char.toUpper 'A')) ∧
      resp.remaining_days =
        pyInt (queueWeeksQ dbFixture ⟨2024, 1, 15⟩ (Char.toUpper 'A') ⟨2024, 6, 3⟩ * 7) :=
  ⟨rfl, by decide, queue_position_formula 'A' _ _ _ _ rfl (by decide)⟩

/-! ### Claim C6 -/

/-- C6, counterexample: the only secondary predictor in the repository,
`PredictionService.predict_from_date`, raises on every call — here at
submit date 2024-01-15 over an empty store it fails with the
`ImportError` for `CaseData` (absent from `models.database`), so no
estimate of any kind, let alone `submitDate + p50Days` with the 150/300
defaults, is ever returned; this refutes the claimed existence of a
working percentile-based secondary operation that does not raise. -/
theorem secondary_predictor_raises_cex :
    predict_from_date ⟨0, none⟩ ⟨2024, 1, 15⟩ =
      .error (.importError "models.database" "CaseData") ∧
    (predict_from_date ⟨0, none⟩ ⟨2024, 1, 15⟩).isOk = false :=
  ⟨rfl, rfl⟩

/-- C6 (amended): no functional percentile-based secondary operation
exists.  `PredictionService.predict_from_date` raises on every input:
loading its module fails with `ImportError` because `models.database`
defines none of `CaseData`, `DailyMetrics`, `PredictionModel`; and even
granting the imports, its body ends in a `CasePrediction(...)` call that
omits the required fields `upper_bound_date`, `estimated_days`,
`upper_bound_days` and `case_id` and therefore raises
`ValidationError`.  It never computes `submitDate + p50Days` and never
returns an estimate. -/
theorem predict_from_date_always_raises (db : ServiceDb) (sd : PyDate) :
    predict_from_date db sd =
      .error (.importError "models.database" "CaseData") ∧
    predict_from_date_body db sd =
      .error (.validationError
        ["upper_bound_date", "estimated_days", "upper_bound_days", "case_id"]) :=
  ⟨rfl, rfl⟩

/-! ### Claim C9 -/

theorem casesBeforeMonthQ_nonneg {monthly : List MonthlyRow} (sy sm : Int)
    (hc : ∀ r ∈ monthly, 0 ≤ r.count) :
    0 ≤ casesBeforeMonthQ monthly sy sm := by
  unfold casesBeforeMonthQ
  refine List.sum_nonneg ?_
  intro x hx
  rcases List.mem_map.mp hx with ⟨r, hr, hrx⟩
  subst hrx
  exact hc r (List.mem_filter.mp hr).1

theorem sameMonthTotalQ_nonneg {monthly : List MonthlyRow} (sy : Int)
    (mName : String) (hc : ∀ r ∈ monthly, 0 ≤ r.count) :
    0 ≤ sameMonthTotalQ monthly sy mName := by
  unfold sameMonthTotalQ
  cases hf : monthly.find? fun r =>
      r.status == "ANALYST REVIEW" && r.year == sy && r.month == mName with
  | none => norm_num [truthy]
  | some r =>
      have hr := hc r (List.mem_of_find?_eq_some hf)
      by_cases hz : r.count = 0
      · simp [truthy, hz]
      · simpa [truthy, hz] using hr

/-- C9: for a valid request — an alphabetic key (uppercased ordinal at
least that of 'A'), a calendar day ≥ 1, submit date not after today —
over a store with non-negative monthly counts and weekly totals and a
processing-times row present, the returned remaining days are
non-negative, the completion date is not before today, and the upper
bound date is not before the completion date. -/
theorem estimate_bounds
    {db : Database} {prow : ProcessingRow} (c : Char) (sd : PyDate)
    (cn tok : String) (today : PyDate)
    (hp : db.processing_times = some prow)
    (hc : ∀ r ∈ db.monthly_status, 0 ≤ r.count)
    (hw : ∀ r ∈ db.weekly_summary, 0 ≤ r.total_applications)
    (hu : 65 ≤ c.toUpper.toNat)
    (hd : 1 ≤ sd.day)
    (_hst : sd.toDays ≤ today.toDays) :
    ∃ resp,
      (predict_from_submit_date true ⟨sd, ⟨[c]⟩, cn, tok⟩ db today).1 = .ok resp ∧
      0 ≤ resp.remaining_days ∧
      today.toDays ≤ resp.estimated_completion_date ∧
      resp.estimated_completion_date ≤ resp.upper_bound_date := by
  have hru : routeLetter (⟨[c]⟩ : String) = c.toUpper := rfl
  have hlp : (0 : ℚ) ≤ (letterPositionI c.toUpper : ℚ) := by
    have : (0 : Int) ≤ letterPositionI c.toUpper := by
      unfold letterPositionI
      omega
    exact_mod_cast this
  have hfac : 0 ≤ monthPositionFactor (letterPositionI c.toUpper) sd.day := by
    unfold monthPositionFactor
    have hdq : (0 : ℚ) ≤ (sd.day : ℚ) - 1 := by
      have : (1 : ℚ) ≤ (sd.day : ℚ) := by exact_mod_cast hd
      linarith
    have h1 : (0 : ℚ) ≤ (letterPositionI c.toUpper : ℚ) / 25 * (8/10) := by positivity
    have h2 : (0 : ℚ) ≤ ((sd.day : ℚ) - 1) / 30 * (2/10) := by positivity
    linarith
  have hqp : 0 ≤ rawQueuePositionQ db.monthly_status sd c.toUpper := by
    unfold rawQueuePositionQ
    exact add_nonneg (casesBeforeMonthQ_nonneg _ _ hc)
      (mul_nonneg (sameMonthTotalQ_nonneg _ _ hc) hfac)
  have hwr : 0 < weeklyRateQ db.weekly_summary today := weeklyRateQ_pos hw
  have hqw : 0 ≤ queueWeeksQ db sd c.toUpper today := by
    unfold queueWeeksQ
    rw [if_pos hwr]
    exact div_nonneg hqp (le_of_lt hwr)
  have hrd : 0 ≤ queueDaysI db sd c.toUpper today :=
    pyInt_nonneg (mul_nonneg hqw (by norm_num))
  have hmargin := le_pyInt_mul_margin hrd
  refine ⟨computeResponse ⟨sd, ⟨[c]⟩, cn, tok⟩ db today,
    by rw [predict_eq_ok hp], ?_, ?_, ?_⟩
  · rw [computeResponse_remaining_days]
    simpa [hru] using hrd
  · rw [computeResponse_completion]
    simp only [hru]
    omega
  · rw [computeResponse_completion, computeResponse_upper_bound]
    simp only [hru]
    omega

/-- C9 witness: the bounds at the fixture store, letter 'A', submit
2024-01-15, today 2024-06-03. -/
theorem estimate_bounds_witness :
    dbFixture.processing_times = some ⟨some 150, some 300⟩ ∧
    (∀ r ∈ dbFixture.monthly_status, 0 ≤ r.count) ∧
    (∀ r ∈ dbFixture.weekly_summary, 0 ≤ r.total_applications) ∧
    65 ≤ Char.toNat (Char.toUpper 'A') ∧
    1 ≤ (15 : Nat) ∧
    PyDate.toDays ⟨2024, 1, 15⟩ ≤ PyDate.toDays ⟨2024, 6, 3⟩ ∧
    ∃ resp,
      (predict_from_submit_date true ⟨⟨2024, 1, 15⟩, ⟨['A']⟩, "CASE123", "tok"⟩
          dbFixture ⟨2024, 6, 3⟩).1 = .ok resp ∧
      0 ≤ resp.remaining_days ∧
      PyDate.toDays ⟨2024, 6, 3⟩ ≤ resp.estimated_completion_date ∧
      resp.estimated_completion_date ≤ resp.upper_bound_date := by
  refine ⟨rfl, ?_, ?_, by decide, by decide, by decide, ?_⟩
  · intro r hr
    simp only [dbFixture, List.mem_cons, List.not_mem_nil, or_false] at hr
    rcases hr with rfl | rfl <;> norm_num
  · intro r hr
    simp [dbFixture] at hr
  · refine estimate_bounds 'A' _ _ _ _ rfl ?_ ?_ (by decide) (by decide) (by decide)
    · intro r hr
      simp only [dbFixture, List.mem_cons, List.not_mem_nil, or_false] at hr
      rcases hr with rfl | rfl <;> norm_num
    · intro r hr
      simp [dbFixture] at hr

end PermBackend
